import Mathlib

/-!
Verification development for the NotebookAppOAuth backend: a shallow
embedding of the identity / session-issuance subsystem (user model,
OTP lifecycle, password login, federated Google login, JWT middleware)
together with theorems settling the specification claims.

Times are modelled in milliseconds, as plain naturals, matching the JavaScript
`Date.now()` convention.  Persistence (`mongoose`) is modelled as a list
of user documents with save/upsert semantics and the `pre('save')` hook.
External libraries (`bcryptjs`, `jsonwebtoken`, the Google token
verifier, the mail transport, `joi`'s email validator) are modelled as
idealized pure functions or as explicit outcome or predicate parameters,
as documented on each definition.
-/

namespace NoteApp

/-! ### Kernel-computable string primitives

The JavaScript string operations used by the code (`toLowerCase`,
`split(sep)`, `trim`) are modelled by structural recursion over the
character list of the string, so that every definition evaluates on
concrete inputs. -/

/-- Split a character list at every occurrence of `sep`, keeping empty
segments — the semantics of JavaScript `String.prototype.split` with a
single-character separator. -/
def splitCharList (sep : Char) : List Char → List (List Char)
  | [] => [[]]
  | c :: cs =>
    let r := splitCharList sep cs
    if c == sep then [] :: r
    else match r with
      | [] => [[c]]
      | w :: ws => (c :: w) :: ws

/-- JavaScript `s.split(sep)` for a one-character separator. -/
def jsSplit (sep : Char) (s : String) : List String :=
  (splitCharList sep s.data).map (fun l => ⟨l⟩)

/-- JavaScript `s.toLowerCase()` (character-wise lowering). -/
def jsToLower (s : String) : String :=
  ⟨s.data.map Char.toLower⟩

/-- JavaScript `s.trim()`: strip leading and trailing whitespace. -/
def jsTrim (s : String) : String :=
  ⟨List.reverse (List.dropWhile Char.isWhitespace
    (List.reverse (List.dropWhile Char.isWhitespace s.data)))⟩

/-- Idealized model of the external `bcryptjs` library: a hash produced by
`bcrypt.hash(password, cost)` is modelled as a record keeping the hashed
source and the cost factor.  This models bcrypt's contract: comparison
succeeds exactly for the password the hash was derived from (perfect,
collision-free hashing). -/
structure BcryptHash where
  source : String
  cost : Nat
deriving DecidableEq, Repr

/-- Model of `bcrypt.hash(password, cost)`. -/
def bcryptHash (password : String) (cost : Nat) : BcryptHash :=
  ⟨password, cost⟩

/-- Model of `bcrypt.compare(password, hash)`. -/
def bcryptCompare (password : String) (hash : BcryptHash) : Bool :=
  password == hash.source

/-- The user document, from `userSchema` in `src/backend/src/types/index.ts`:
email (stored lowercased), optional bcrypt password hash, display name,
verification flag, optional Google subject id, optional OTP code and expiry,
creation timestamp.  `_id` is modelled as a `Nat`. -/
structure User where
  id : Nat
  email : String
  password : Option BcryptHash
  name : String
  isVerified : Bool
  googleId : Option String
  otp : Option String
  otpExpiry : Option Nat
  createdAt : Nat
deriving DecidableEq, Repr

/-- The credential store: the `users` collection, as a list of documents. -/
abbrev Store := List User

/-- Email normalization: both the schema (`lowercase: true`) and every lookup
(`email.toLowerCase()`) lowercase the email. -/
def normalizeEmail (email : String) : String :=
  jsToLower email

/-- `User.findByEmail` / `User.findOne({email: email.toLowerCase()})`. -/
def findByEmail (st : Store) (email : String) : Option User :=
  st.find? (fun u => u.email == normalizeEmail email)

/-- `User.findById`. -/
def findById (st : Store) (id : Nat) : Option User :=
  st.find? (fun u => u.id == id)

/-- The single failure mode of the `userSchema.pre('save')` hook
(`types/index.ts` lines 197-203): a document with neither a password hash
nor a Google subject id is rejected. -/
inductive SaveError where
  | noAuthMethod
deriving DecidableEq, Repr

/-- JavaScript truthiness for an optional string field: absent and the
empty string are both falsy. -/
def optTruthy (o : Option String) : Bool :=
  match o with
  | none => false
  | some s => s != ""

/-- Replace the document with the same `_id` (mongoose `save` on an
already-persisted document). -/
def replaceById (st : Store) (u : User) : Store :=
  st.map (fun v => if v.id == u.id then u else v)

/-- Model of `document.save()`: first the `pre('save')` hook runs — it fails
with an error (and nothing is persisted) when the document has neither a
password hash nor a `googleId`; otherwise the document is upserted by id. -/
def saveUser (st : Store) (u : User) : Except SaveError Store :=
  if u.password.isNone && ¬ optTruthy u.googleId then
    .error .noAuthMethod
  else if st.any (fun v => v.id == u.id) then
    .ok (replaceById st u)
  else
    .ok (st ++ [u])

/-- `AppError(message, statusCode, code)` from `middleware/errorHandler.ts`. -/
structure AppError where
  message : String
  status : Nat
  code : String
deriving DecidableEq, Repr

/-! ### OTP generation (`userSchema.methods.generateOTP`)

The source computes `Math.floor(100000 + Math.random() * 900000).toString()`.
`Math.random()` is uniform on `[0,1)`, so `Math.floor(Math.random() * 900000)`
is a uniform integer draw from `[0, 900000)`; we model that draw as
`seed % 900000` for an arbitrary `seed : Nat`, and the rendered code as the
decimal representation (`Nat.repr`, which like JavaScript `Number.toString()`
prints base 10 with no leading zeros). -/

/-- The value of `Math.floor(Math.random() * 900000)`: a uniform integer in
`[0, 900000)`, parametrized by the random seed. -/
def randomDraw (seed : Nat) : Nat :=
  seed % 900000

/-- `userSchema.methods.generateOTP`: stores the 6-digit code and an expiry
of now + 10 minutes on the document and returns the code. -/
def User.generateOTP (u : User) (seed : Nat) (now : Nat) : User × String :=
  let code := Nat.repr (100000 + randomDraw seed)
  ({ u with otp := some code, otpExpiry := some (now + 10 * 60 * 1000) }, code)

/-- `userSchema.methods.isOTPValid`: the stored code textually equals the
candidate, an expiry is stored, and the current time is strictly before it.
A document with no stored code (or no stored expiry) never validates. -/
def User.isOTPValid (u : User) (otp : String) (now : Nat) : Bool :=
  match u.otp, u.otpExpiry with
  | some stored, some expiry => stored == otp && now < expiry
  | _, _ => false

/-- `userSchema.methods.clearOTP`. -/
def User.clearOTP (u : User) : User :=
  { u with otp := none, otpExpiry := none }

/-! ### Decimal representation lemmas

`Nat.repr n` is `(Nat.toDigits 10 n).asString`; we prove that for `n ≠ 0`
the first character is never `'0'`, and that a number in `[10^e, 10^(e+1))`
renders with exactly `e + 1` characters. -/

/-- Number of decimal digits of `n` (1 for `n < 10`). -/
def decimalLen (n : Nat) : Nat :=
  if n < 10 then 1 else decimalLen (n / 10) + 1
termination_by n
decreasing_by exact Nat.div_lt_self (by omega) (by omega)

theorem decimalLen_lt (n : Nat) (h : n < 10) : decimalLen n = 1 := by
  unfold decimalLen
  simp [h]

theorem decimalLen_ge (n : Nat) (h : ¬ n < 10) : decimalLen n = decimalLen (n / 10) + 1 := by
  conv_lhs => unfold decimalLen
  simp [h]

theorem decimalLen_range (e : Nat) : ∀ n : Nat, 10 ^ e ≤ n → n < 10 ^ (e + 1) →
    decimalLen n = e + 1 := by
  induction e with
  | zero =>
    intro n h1 h2
    exact decimalLen_lt n (by simpa using h2)
  | succ e ih =>
    intro n h1 h2
    have hge : ¬ n < 10 := by
      have : (10 : Nat) ≤ 10 ^ (e + 1) := by
        calc (10 : Nat) = 10 ^ 1 := by norm_num
        _ ≤ 10 ^ (e + 1) := Nat.pow_le_pow_right (by norm_num) (by omega)
      omega
    rw [decimalLen_ge n hge]
    have hdiv1 : 10 ^ e ≤ n / 10 := by
      rw [Nat.le_div_iff_mul_le (by norm_num)]
      calc 10 ^ e * 10 = 10 ^ (e + 1) := by ring
      _ ≤ n := h1
    have hdiv2 : n / 10 < 10 ^ (e + 1) := by
      rw [Nat.div_lt_iff_lt_mul (by norm_num)]
      calc n < 10 ^ (e + 1 + 1) := h2
      _ = 10 ^ (e + 1) * 10 := by ring
    rw [ih (n / 10) hdiv1 hdiv2]

theorem digitChar_ne_zero (d : Nat) (h1 : 0 < d) (h2 : d < 10) :
    Nat.digitChar d ≠ '0' := by
  interval_cases d <;> decide

/-- `Nat.toDigitsCore` with sufficient fuel on a nonzero input produces a
list whose head is a nonzero digit character, and whose length is the
number of decimal digits plus the accumulator's length. -/
theorem toDigitsCore_spec : ∀ (fuel n : Nat) (ds : List Char), n ≠ 0 → n ≤ fuel →
    ∃ c cs, Nat.toDigitsCore 10 fuel n ds = c :: cs ∧ c ≠ '0' ∧
      (c :: cs).length = decimalLen n + ds.length := by
  intro fuel
  induction fuel with
  | zero => intro n ds h1 h2; omega
  | succ fuel ih =>
    intro n ds h1 h2
    rw [Nat.toDigitsCore]
    by_cases hdiv : n / 10 = 0
    · have hn10 : n < 10 := by omega
      refine ⟨Nat.digitChar (n % 10), ds, by simp [hdiv], ?_, ?_⟩
      · have : n % 10 = n := Nat.mod_eq_of_lt hn10
        rw [this]
        exact digitChar_ne_zero n (by omega) hn10
      · simp [decimalLen_lt n hn10]; omega
    · have hrec : n / 10 ≤ fuel := by
        have : n / 10 < n := Nat.div_lt_self (by omega) (by norm_num)
        omega
      obtain ⟨c, cs, heq, hc, hlen⟩ := ih (n / 10) (Nat.digitChar (n % 10) :: ds) hdiv hrec
      refine ⟨c, cs, by simp [hdiv, heq], hc, ?_⟩
      rw [hlen]
      have : ¬ n < 10 := by omega
      simp [decimalLen_ge n this]
      omega

/-- For `n ≠ 0`, the decimal string `Nat.repr n` starts with a nonzero digit
and has `decimalLen n` characters. -/
theorem repr_head_ne_zero (n : Nat) (h : n ≠ 0) :
    ∃ c cs, (Nat.repr n).data = c :: cs ∧ c ≠ '0' ∧
      (c :: cs).length = decimalLen n := by
  obtain ⟨c, cs, heq, hc, hlen⟩ := toDigitsCore_spec (n + 1) n [] h (by omega)
  refine ⟨c, cs, ?_, hc, by simpa using hlen⟩
  simp [Nat.repr, Nat.toDigits, List.asString, heq]

/-! ### JWT codec (`middleware/auth.ts` and the `jsonwebtoken` library)

The `jsonwebtoken` library is modelled ideally: a signed token is a record
of its claims together with the secret it was signed with; verification
succeeds exactly when the supplied secret equals the signing secret
(unforgeable signatures) and the current time is before the embedded
expiry.  The error taxonomy mirrors the library's error class names. -/

/-- The `{userId, email}` payload (`IJWTPayload` without `iat`/`exp`). -/
structure JwtPayload where
  userId : String
  email : String
deriving DecidableEq, Repr

/-- An issued token: payload claims, issued-at, expiry, issuer and audience
claims, and (idealized signature) the signing secret. -/
structure SignedToken where
  userId : String
  email : String
  iat : Nat
  exp : Nat
  issuer : String
  audience : String
  secret : String
deriving DecidableEq, Repr

/-- The `'7d'` expiry window, in milliseconds. -/
def jwtExpiryMs : Nat := 7 * 24 * 60 * 60 * 1000

/-- `generateAccessToken` (`middleware/auth.ts` lines 75-81):
`jwt.sign(payload, env.JWT_SECRET, {expiresIn: '7d', issuer, audience})`. -/
def generateAccessToken (payload : JwtPayload) (secret : String) (now : Nat) : SignedToken :=
  { userId := payload.userId
    email := payload.email
    iat := now
    exp := now + jwtExpiryMs
    issuer := "noteapp-backend"
    audience := "noteapp-frontend"
    secret := secret }

/-- The error classes `jwt.verify` can produce, identified (as in the
middleware) by their `name` property. -/
inductive JwtVerifyError where
  | tokenExpiredError
  | jsonWebTokenError
  | notBeforeError
deriving DecidableEq, Repr

/-- The `err.name` string the middleware branches on. -/
def jwtErrorName : JwtVerifyError → String
  | .tokenExpiredError => "TokenExpiredError"
  | .jsonWebTokenError => "JsonWebTokenError"
  | .notBeforeError => "NotBeforeError"

/-- Idealized `jwt.verify(token, secret)` on a structurally intact token:
wrong secret (signature mismatch) is a `JsonWebTokenError`; a validly
signed token whose expiry is not in the future is a `TokenExpiredError`;
otherwise the decoded payload is returned. -/
def jwtVerify (t : SignedToken) (secret : String) (now : Nat) :
    Except JwtVerifyError JwtPayload :=
  if t.secret ≠ secret then .error .jsonWebTokenError
  else if t.exp ≤ now then .error .tokenExpiredError
  else .ok ⟨t.userId, t.email⟩

/-- `verifyToken` (`middleware/auth.ts` lines 83-93): a promise wrapper
around `jwt.verify` — resolves with the decoded payload, rejects with the
verification error. -/
def verifyToken (t : SignedToken) (secret : String) (now : Nat) :
    Except JwtVerifyError JwtPayload :=
  jwtVerify t secret now

/-! ### Session authentication middleware (`authenticateToken`) -/

/-- Token extraction: `authHeader && authHeader.split(' ')[1]`.  An absent
or empty header, a header with no second space-separated part, or an empty
second part (all falsy in JavaScript) yield no token. -/
def extractToken (header : Option String) : Option String :=
  match header with
  | none => none
  | some h =>
    if h == "" then none
    else match (jsSplit ' ' h).get? 1 with
      | none => none
      | some t => if t == "" then none else some t

/-- The middleware's observable outcome: an error response (status + code +
message) or acceptance with the decoded payload injected into `req.user`. -/
inductive AuthOutcome where
  | reject (status : Nat) (code : String) (message : String)
  | accept (payload : JwtPayload)
deriving DecidableEq, Repr

/-- `authenticateToken` (`middleware/auth.ts` lines 6-73).  The raw-string
`jwt.verify` (which may also fail on malformed token text) is passed as a
function parameter `verify`.  No token → 401 `MISSING_TOKEN`; verification
error → 403, with code chosen by the error's `name`: `TokenExpiredError` →
`TOKEN_EXPIRED`, `JsonWebTokenError` → `MALFORMED_TOKEN`, anything else →
the default `INVALID_TOKEN`; success → inject the decoded payload. -/
def authenticateToken (header : Option String)
    (verify : String → Except JwtVerifyError JwtPayload) : AuthOutcome :=
  match extractToken header with
  | none => .reject 401 "MISSING_TOKEN" "Access token required"
  | some token =>
    match verify token with
    | .error e =>
      if jwtErrorName e == "TokenExpiredError" then
        .reject 403 "TOKEN_EXPIRED" "Token has expired"
      else if jwtErrorName e == "JsonWebTokenError" then
        .reject 403 "MALFORMED_TOKEN" "Invalid token format"
      else
        .reject 403 "INVALID_TOKEN" "Invalid or expired token"
    | .ok decoded => .accept decoded

/-! ### Responses and public projection -/

/-- `IUserResponse` as produced by `userSchema.methods.toUserResponse`. -/
structure UserResponse where
  id : String
  email : String
  name : String
  isVerified : Bool
  createdAt : Nat
deriving DecidableEq, Repr

/-- `toUserResponse` (`types/index.ts` lines 231-239). -/
def User.toUserResponse (u : User) : UserResponse :=
  { id := Nat.repr u.id
    email := u.email
    name := u.name
    isVerified := u.isVerified
    createdAt := u.createdAt }

/-- `IAuthResponse`: message, bearer token, public user projection. -/
structure AuthSuccess where
  message : String
  token : SignedToken
  user : UserResponse
deriving DecidableEq, Repr

/-- The 201 registration response body (status, success flag, the two
message strings, and the returned `{userId, email}`). -/
structure RegisterSuccess where
  status : Nat
  success : Bool
  message : String
  userId : Nat
  email : String
  dataMessage : String
deriving DecidableEq, Repr

/-! ### Request validation (`src/backend/src/utils/email.ts` lines 145-335)

`validateRequest` (lines 294-315) runs a Joi schema with conversion
(`.trim()` rules convert their field) and, on rejection, throws
`{status: 400, message: "Validation failed", errors}`; the global error
handler (`errorHandler.ts`, the `err.status === 400 && err.errors`
branch) converts that throw into
`AppError("Validation failed", 400, "VALIDATION_ERROR")`.  The schemas
check email fields with `.email({tlds: {allow: false}})` — the external
`joi` library's email validator — whose acceptance predicate is passed as
a function parameter `joiEmail`, like the other external verifiers in
this development. -/

/-- The response produced when `validateRequest` rejects
(`utils/email.ts` lines 300-312): the thrown
`{status: 400, message: "Validation failed", errors}`, as converted by
the global error handler's Joi branch to code `VALIDATION_ERROR`. -/
def validationError : AppError :=
  ⟨"Validation failed", 400, "VALIDATION_ERROR"⟩

/-- `registerSchema` (`utils/email.ts` lines 156-183): email accepted by
Joi's email validator (the `joiEmail` parameter), password length in
`[6,128]`, name trimmed (Joi `.trim()` converts) to length in `[2,50]`;
all three fields required. -/
def registerSchemaAccepts (joiEmail : String → Bool)
    (email password name : String) : Bool :=
  joiEmail email &&
  decide (6 ≤ password.length) && decide (password.length ≤ 128) &&
  decide (2 ≤ (jsTrim name).length) && decide ((jsTrim name).length ≤ 50)

/-! ### Auth controller endpoints (`src/unnamed/part_000`) -/

/-- `register` (part_000 lines 291-342).  `freshId` models the new
document's `_id`, `seed` the OTP randomness, `emailOk` whether
`emailService.sendOTPEmail` succeeds (its failure is caught), and
`joiEmail` the external Joi email validator applied by `registerSchema`. -/
def register (st : Store) (email password name : String)
    (freshId : Nat) (seed : Nat) (now : Nat) (emailOk : Bool)
    (joiEmail : String → Bool) :
    Except AppError RegisterSuccess × Store :=
  if ¬ registerSchemaAccepts joiEmail email password name then (.error validationError, st)
  else match findByEmail st email with
  | some _ => (.error ⟨"User already exists with this email", 400, "USER_EXISTS"⟩, st)
  | none =>
    let user : User :=
      { id := freshId
        email := normalizeEmail email
        password := some (bcryptHash password 12)
        name := jsTrim name
        isVerified := false
        googleId := none
        otp := none
        otpExpiry := none
        createdAt := now }
    let (user, _otp) := user.generateOTP seed now
    match saveUser st user with
    | .error _ => (.error ⟨"Either password or googleId must be provided", 500, "INTERNAL_ERROR"⟩, st)
    | .ok st' =>
      if emailOk then
        (.ok { status := 201, success := true
               message := "User registered successfully. Please check your email for OTP verification."
               userId := user.id, email := user.email
               dataMessage := "OTP sent to email" }, st')
      else
        (.ok { status := 201, success := true
               message := "User registered but email could not be sent. Please try to resend OTP."
               userId := user.id, email := user.email
               dataMessage := "Email service temporarily unavailable" }, st')

/-- `verifyOTP` (part_000 lines 344-393).  The welcome email is best-effort
(its failure is caught and ignored), so it does not appear in the state. -/
def verifyOTP (st : Store) (email otp : String) (now : Nat) (secret : String) :
    Except AppError AuthSuccess × Store :=
  match findByEmail st email with
  | none => (.error ⟨"User not found", 404, "USER_NOT_FOUND"⟩, st)
  | some user =>
    if user.isVerified then
      (.error ⟨"User is already verified", 400, "ALREADY_VERIFIED"⟩, st)
    else if ¬ user.isOTPValid otp now then
      (.error ⟨"Invalid or expired OTP", 400, "INVALID_OTP"⟩, st)
    else
      let user := User.clearOTP { user with isVerified := true }
      match saveUser st user with
      | .error _ => (.error ⟨"Either password or googleId must be provided", 500, "INTERNAL_ERROR"⟩, st)
      | .ok st' =>
        let token := generateAccessToken ⟨Nat.repr user.id, user.email⟩ secret now
        (.ok { message := "Email verified successfully", token := token
               user := user.toUserResponse }, st')

/-- `login` (part_000 lines 395-441). -/
def login (st : Store) (email password : String) (now : Nat) (secret : String) :
    Except AppError AuthSuccess × Store :=
  match st.find? (fun u => u.email == normalizeEmail email) with
  | none => (.error ⟨"Invalid email or password", 401, "INVALID_CREDENTIALS"⟩, st)
  | some user =>
    if optTruthy user.googleId && user.password.isNone then
      (.error ⟨"Please login with Google", 400, "GOOGLE_LOGIN_REQUIRED"⟩, st)
    else match user.password with
    | none => (.error ⟨"Please login with Google", 400, "GOOGLE_LOGIN_REQUIRED"⟩, st)
    | some hash =>
      if ¬ bcryptCompare password hash then
        (.error ⟨"Invalid email or password", 401, "INVALID_CREDENTIALS"⟩, st)
      else if ¬ user.isVerified then
        (.error ⟨"Please verify your email first", 400, "EMAIL_NOT_VERIFIED"⟩, st)
      else
        (.ok { message := "Login successful"
               token := generateAccessToken ⟨Nat.repr user.id, user.email⟩ secret now
               user := user.toUserResponse }, st)

/-- The claims of a verified Google ID-token payload
(`sub`/`email`/`name`, each possibly absent). -/
structure GooglePayload where
  sub : Option String
  email : Option String
  name : Option String
deriving DecidableEq, Repr

/-- Outcome of the external `googleClient.verifyIdToken` call: the call
throws (invalid assertion — bad signature, wrong audience, expired),
returns a ticket with no payload, or yields verified claims. -/
inductive GoogleVerification where
  | failed
  | noPayload
  | verified (p : GooglePayload)
deriving DecidableEq, Repr

/-- Build the `IAuthResponse` issued at the end of `googleAuth`. -/
def mkAuthSuccess (message : String) (u : User) (secret : String) (now : Nat) :
    AuthSuccess :=
  { message := message
    token := generateAccessToken ⟨Nat.repr u.id, u.email⟩ secret now
    user := u.toUserResponse }

/-- `googleAuth` (part_000 lines 443-517).  A `verifyIdToken` throw, or any
non-`AppError` thrown inside the `try` (e.g. a save-hook failure), is caught
and converted to 500 `GOOGLE_AUTH_FAILED`; `AppError`s are rethrown
unchanged.  JavaScript truthiness: an empty-string claim counts as missing,
and an empty-string stored `googleId` counts as not linked. -/
def googleAuth (st : Store) (v : GoogleVerification)
    (freshId : Nat) (now : Nat) (secret : String) :
    Except AppError AuthSuccess × Store :=
  match v with
  | .failed => (.error ⟨"Google authentication failed", 500, "GOOGLE_AUTH_FAILED"⟩, st)
  | .noPayload => (.error ⟨"Invalid Google token", 400, "INVALID_GOOGLE_TOKEN"⟩, st)
  | .verified p =>
    match p.sub, p.email, p.name with
    | some googleId, some email, some name =>
      if googleId == "" || email == "" || name == "" then
        (.error ⟨"Incomplete Google profile", 400, "INCOMPLETE_GOOGLE_PROFILE"⟩, st)
      else
        match findByEmail st email with
        | some user =>
          if ¬ optTruthy user.googleId then
            let user := { user with googleId := some googleId, isVerified := true }
            match saveUser st user with
            | .error _ => (.error ⟨"Google authentication failed", 500, "GOOGLE_AUTH_FAILED"⟩, st)
            | .ok st' => (.ok (mkAuthSuccess "Google login successful" user secret now), st')
          else
            (.ok (mkAuthSuccess "Google login successful" user secret now), st)
        | none =>
          let user : User :=
            { id := freshId
              email := normalizeEmail email
              password := none
              name := name
              isVerified := true
              googleId := some googleId
              otp := none
              otpExpiry := none
              createdAt := now }
          match saveUser st user with
          | .error _ => (.error ⟨"Google authentication failed", 500, "GOOGLE_AUTH_FAILED"⟩, st)
          | .ok st' => (.ok (mkAuthSuccess "Google login successful" user secret now), st')
    | _, _, _ => (.error ⟨"Incomplete Google profile", 400, "INCOMPLETE_GOOGLE_PROFILE"⟩, st)

/-! ### User controller endpoints (`src/unnamed/part_000` lines 81-172) -/

/-- A plain `{success, message}` 200 response. -/
structure SimpleSuccess where
  success : Bool
  message : String
deriving DecidableEq, Repr

/-- `updateProfileSchema` (part_000 lines 10-26): optional name, trimmed
(Joi `.trim()` converts) to length in `[2,50]`; optional email accepted
by Joi's email validator (the `joiEmail` parameter).  Joi rejects empty
strings for both. -/
def updateProfileSchemaAccepts (joiEmail : String → Bool)
    (name? email? : Option String) : Bool :=
  (match name? with
   | none => true
   | some n => n != "" && decide (2 ≤ (jsTrim n).length) && decide ((jsTrim n).length ≤ 50)) &&
  (match email? with
   | none => true
   | some e => e != "" && joiEmail e)

/-- `updateProfile` (part_000 lines 81-126), for the authenticated account
`userId`; `joiEmail` is the external Joi email validator applied by
`updateProfileSchema`.  A changed email is lowercased and resets the
verification flag; an email already held by another account is rejected. -/
def updateProfile (st : Store) (userId : Nat) (name? email? : Option String)
    (joiEmail : String → Bool) :
    Except AppError SimpleSuccess × Store :=
  if ¬ updateProfileSchemaAccepts joiEmail name? email? then (.error validationError, st)
  else if name?.isNone && email?.isNone then
    (.error ⟨"No fields to update", 400, "NO_FIELDS_TO_UPDATE"⟩, st)
  else match findById st userId with
  | none => (.error ⟨"User not found", 404, "USER_NOT_FOUND"⟩, st)
  | some user =>
    let emailStep : Except AppError User :=
      match email? with
      | some newEmail =>
        if newEmail != user.email then
          match findByEmail st newEmail with
          | some _ => .error ⟨"Email is already in use", 400, "EMAIL_ALREADY_EXISTS"⟩
          | none => .ok { user with email := jsToLower newEmail, isVerified := false }
        else .ok user
      | none => .ok user
    match emailStep with
    | .error e => (.error e, st)
    | .ok user =>
      let user :=
        match name? with
        | some newName => { user with name := jsTrim newName }
        | none => user
      match saveUser st user with
      | .error _ => (.error ⟨"Either password or googleId must be provided", 500, "INTERNAL_ERROR"⟩, st)
      | .ok st' => (.ok { success := true, message := "Profile updated successfully" }, st')

/-- `changePasswordSchema` (part_000 lines 28-43): current password
required (Joi rejects the empty string), new password length in `[6,128]`. -/
def validChangePasswordInput (currentPassword newPassword : String) : Bool :=
  currentPassword != "" &&
  decide (6 ≤ newPassword.length) && decide (newPassword.length ≤ 128)

/-- `changePassword` (part_000 lines 128-172), for the authenticated
account `userId`. -/
def changePassword (st : Store) (userId : Nat) (currentPassword newPassword : String) :
    Except AppError SimpleSuccess × Store :=
  if ¬ validChangePasswordInput currentPassword newPassword then
    (.error validationError, st)
  else match findById st userId with
  | none => (.error ⟨"User not found", 404, "USER_NOT_FOUND"⟩, st)
  | some user =>
    match user.password with
    | none =>
      (.error ⟨"Cannot change password for Google-authenticated account", 400, "GOOGLE_ACCOUNT_NO_PASSWORD"⟩, st)
    | some hash =>
      if ¬ bcryptCompare currentPassword hash then
        (.error ⟨"Current password is incorrect", 400, "INVALID_CURRENT_PASSWORD"⟩, st)
      else if bcryptCompare newPassword hash then
        (.error ⟨"New password must be different from current password", 400, "SAME_PASSWORD"⟩, st)
      else
        let user := { user with password := some (bcryptHash newPassword 12) }
        match saveUser st user with
        | .error _ => (.error ⟨"Either password or googleId must be provided", 500, "INTERNAL_ERROR"⟩, st)
        | .ok st' => (.ok { success := true, message := "Password changed successfully" }, st')

/-! ## Theorems settling the claims -/

/-- A concrete registered-but-unverified user, used by the concrete
witness instances below. -/
def sampleUser : User :=
  { id := 1
    email := "ann@example.com"
    password := some (bcryptHash "secret1" 12)
    name := "Ann"
    isVerified := false
    googleId := none
    otp := none
    otpExpiry := none
    createdAt := 0 }

/-- C2 (amended): `generateOTP` renders the decimal string of
`100000 + d` for a uniform draw `d ∈ [0, 900000)` — so the code is always
the representation of an integer in `[100000, 999999]`, is exactly 6
characters long, never starts with the digit `0` — and stores the code
together with an expiry of exactly now + 10 minutes. -/
theorem C2_generateOTP_range (u : User) (seed : Nat) (now : Nat) :
    (u.generateOTP seed now).2 = Nat.repr (100000 + randomDraw seed) ∧
    100000 ≤ 100000 + randomDraw seed ∧
    100000 + randomDraw seed ≤ 999999 ∧
    ((u.generateOTP seed now).2).length = 6 ∧
    (∀ c cs, ((u.generateOTP seed now).2).data = c :: cs → c ≠ '0') ∧
    ((u.generateOTP seed now).1).otp = some ((u.generateOTP seed now).2) ∧
    ((u.generateOTP seed now).1).otpExpiry = some (now + 10 * 60 * 1000) := by
  have hb : randomDraw seed < 900000 := Nat.mod_lt seed (by norm_num)
  have hk0 : 100000 + randomDraw seed ≠ 0 := by omega
  obtain ⟨c, cs, hdata, hc, hlen⟩ := repr_head_ne_zero (100000 + randomDraw seed) hk0
  have e5 : (10 : Nat) ^ 5 = 100000 := by norm_num
  have e6 : (10 : Nat) ^ (5 + 1) = 1000000 := by norm_num
  have hdl : decimalLen (100000 + randomDraw seed) = 6 := by
    have := decimalLen_range 5 (100000 + randomDraw seed) (by omega) (by omega)
    omega
  refine ⟨rfl, by omega, by omega, ?_, ?_, rfl, rfl⟩
  · show (Nat.repr (100000 + randomDraw seed)).data.length = 6
    rw [hdata]
    rw [hlen, hdl]
  · intro c' cs' h
    have h2 : (Nat.repr (100000 + randomDraw seed)).data = c' :: cs' := h
    rw [hdata] at h2
    injection h2 with h3 _
    rw [← h3]
    exact hc

/-- C2 witness: at seed 12345 the code is "112345" and the expiry is
0 + 10 minutes. -/
theorem C2_generateOTP_range_witness :
    (User.generateOTP sampleUser 12345 0).2 = "112345" ∧
    ((User.generateOTP sampleUser 12345 0).1).otpExpiry = some 600000 :=
  ⟨(C2_generateOTP_range sampleUser 12345 0).1.trans (by rfl),
   (C2_generateOTP_range sampleUser 12345 0).2.2.2.2.2.2⟩

/-- C2 counterexample: the string "012345" (a 6-digit value with a leading
zero) is never an output of `generateOTP`, for any document, seed or time —
refuting the claim that leading-zero codes are possible. -/
theorem C2_counterexample :
    ¬ ∃ (u : User) (seed : Nat) (now : Nat),
      (u.generateOTP seed now).2 = "012345" := by
  intro ⟨u, seed, now, h⟩
  have hk0 : 100000 + randomDraw seed ≠ 0 := by unfold randomDraw; omega
  obtain ⟨c, cs, hdata, hc, _⟩ := repr_head_ne_zero (100000 + randomDraw seed) hk0
  have h2 : Nat.repr (100000 + randomDraw seed) = "012345" := h
  have h3 : ("012345" : String).data = c :: cs := by
    rw [← h2]
    exact hdata
  have hd : ("012345" : String).data = '0' :: ['1', '2', '3', '4', '5'] := rfl
  rw [hd] at h3
  injection h3 with h4 _
  exact hc h4.symm

/-- C9: issuing a token with `generateAccessToken` and immediately
verifying it with `verifyToken`, under the same signing secret and at any
time before the 7-day expiry, returns the original `{userId, email}` pair
unchanged. -/
theorem C9_token_roundtrip (userId email secret : String) (now now' : Nat)
    (h : now' < now + jwtExpiryMs) :
    verifyToken (generateAccessToken ⟨userId, email⟩ secret now) secret now' =
      .ok ⟨userId, email⟩ := by
  have h2 : ¬ (now + jwtExpiryMs ≤ now') := by unfold jwtExpiryMs at h ⊢; omega
  simp [verifyToken, jwtVerify, generateAccessToken, h2]

/-- C9 witness: a concrete round trip at the last millisecond of the
validity window. -/
theorem C9_token_roundtrip_witness :
    verifyToken (generateAccessToken ⟨"1", "ann@example.com"⟩ "jwtsecret" 0) "jwtsecret" 604799999 =
      .ok ⟨"1", "ann@example.com"⟩ :=
  C9_token_roundtrip "1" "ann@example.com" "jwtsecret" 0 604799999
    (by norm_num [jwtExpiryMs])

/-- C8 counterexample: a request carrying a token whose verification fails
with a `JsonWebTokenError` (bad signature or malformed structure) is
rejected with code `MALFORMED_TOKEN`, not the generic `INVALID_TOKEN` the
claim names for that case. -/
theorem C8_counterexample :
    authenticateToken (some "Bearer sometoken") (fun _ => .error .jsonWebTokenError) =
      .reject 403 "MALFORMED_TOKEN" "Invalid token format" ∧
    ("MALFORMED_TOKEN" : String) ≠ "INVALID_TOKEN" :=
  ⟨by decide, by decide⟩

/-- C8 (amended): the middleware rejects with 401 `MISSING_TOKEN` when no
bearer token is present, 403 `TOKEN_EXPIRED` on an expired-but-validly-
signed token, 403 `MALFORMED_TOKEN` on a `JsonWebTokenError` (bad
signature, malformed structure), 403 `INVALID_TOKEN` on every other
verification failure, and on success injects the decoded `{userId, email}`
payload. -/
theorem C8_middleware_classification (header : Option String)
    (verify : String → Except JwtVerifyError JwtPayload)
    (token : String) (p : JwtPayload) :
    (extractToken header = none →
      authenticateToken header verify = .reject 401 "MISSING_TOKEN" "Access token required") ∧
    (extractToken header = some token → verify token = .error .tokenExpiredError →
      authenticateToken header verify = .reject 403 "TOKEN_EXPIRED" "Token has expired") ∧
    (extractToken header = some token → verify token = .error .jsonWebTokenError →
      authenticateToken header verify = .reject 403 "MALFORMED_TOKEN" "Invalid token format") ∧
    (extractToken header = some token → verify token = .error .notBeforeError →
      authenticateToken header verify = .reject 403 "INVALID_TOKEN" "Invalid or expired token") ∧
    (extractToken header = some token → verify token = .ok p →
      authenticateToken header verify = .accept p) := by
  refine ⟨?_, ?_, ?_, ?_, ?_⟩ <;> intro h1
  · simp [authenticateToken, h1]
  all_goals intro h2
  all_goals simp [authenticateToken, h1, h2, jwtErrorName]

/-- C8 witness: concrete instances of all five branches. -/
theorem C8_middleware_classification_witness :
    authenticateToken none (fun _ => .ok ⟨"1", "e"⟩) =
      .reject 401 "MISSING_TOKEN" "Access token required" ∧
    authenticateToken (some "Bearer t") (fun _ => .error .tokenExpiredError) =
      .reject 403 "TOKEN_EXPIRED" "Token has expired" ∧
    authenticateToken (some "Bearer t") (fun _ => .error .notBeforeError) =
      .reject 403 "INVALID_TOKEN" "Invalid or expired token" ∧
    authenticateToken (some "Bearer t") (fun _ => .ok ⟨"1", "e"⟩) =
      .accept ⟨"1", "e"⟩ :=
  ⟨(C8_middleware_classification none (fun _ => .ok ⟨"1", "e"⟩) "t" ⟨"1", "e"⟩).1 rfl,
   (C8_middleware_classification (some "Bearer t") (fun _ => .error .tokenExpiredError) "t"
      ⟨"1", "e"⟩).2.1 (by decide) rfl,
   (C8_middleware_classification (some "Bearer t") (fun _ => .error .notBeforeError) "t"
      ⟨"1", "e"⟩).2.2.2.1 (by decide) rfl,
   (C8_middleware_classification (some "Bearer t") (fun _ => .ok ⟨"1", "e"⟩) "t"
      ⟨"1", "e"⟩).2.2.2.2 (by decide) rfl⟩

/-- C4: a login with a password that matches the stored hash, on an
account whose verification flag is false, fails with 400
`EMAIL_NOT_VERIFIED`, issues no token, and leaves the store unchanged. -/
theorem C4_login_unverified (st : Store) (email password : String)
    (user : User) (hash : BcryptHash) (now : Nat) (secret : String)
    (hfind : findByEmail st email = some user)
    (hpw : user.password = some hash)
    (hcmp : bcryptCompare password hash = true)
    (hver : user.isVerified = false) :
    login st email password now secret =
      (.error ⟨"Please verify your email first", 400, "EMAIL_NOT_VERIFIED"⟩, st) := by
  have hfind' : (st.find? fun u => u.email == normalizeEmail email) = some user := hfind
  simp [login, hfind', hpw, hcmp, hver]

/-- C4 witness: the sample unverified user with the correct password. -/
theorem C4_login_unverified_witness :
    login [sampleUser] "ann@example.com" "secret1" 0 "jwtsecret" =
      (.error ⟨"Please verify your email first", 400, "EMAIL_NOT_VERIFIED"⟩, [sampleUser]) :=
  C4_login_unverified [sampleUser] "ann@example.com" "secret1" sampleUser
    (bcryptHash "secret1" 12) 0 "jwtsecret" (by decide) rfl (by decide) rfl

/-- C7: a `verifyOTP` call that fails with `INVALID_OTP` leaves the store —
and hence every field of every account, including the stored OTP pair —
unchanged; in particular submitting the exact stored code at or after its
expiry fails with `INVALID_OTP` and mutates nothing. -/
theorem C7_invalid_otp_frame (st : Store) (email otp : String) (now : Nat) (secret : String) :
    ((verifyOTP st email otp now secret).1 =
        .error ⟨"Invalid or expired OTP", 400, "INVALID_OTP"⟩ →
      (verifyOTP st email otp now secret).2 = st) ∧
    (∀ user code expiry, findByEmail st email = some user → user.isVerified = false →
      user.otp = some code → user.otpExpiry = some expiry → expiry ≤ now →
      verifyOTP st email code now secret =
        (.error ⟨"Invalid or expired OTP", 400, "INVALID_OTP"⟩, st)) := by
  constructor
  · intro h
    rcases hf : findByEmail st email with _ | u
    · simp [verifyOTP, hf]
    by_cases hv : u.isVerified = true
    · simp [verifyOTP, hf, hv]
    by_cases ho : u.isOTPValid otp now = true
    · rcases hs : saveUser st (User.clearOTP { u with isVerified := true }) with e | st'
      · simp [verifyOTP, hf, hv, ho, hs]
      · exfalso
        rw [verifyOTP] at h
        simp [hf, hv, ho, hs] at h
    · simp [verifyOTP, hf, hv, ho]
  · intro user code expiry hf hv hotp hexp he
    have hnl : ¬ now < expiry := by omega
    have hval : user.isOTPValid code now = false := by
      simp [User.isOTPValid, hotp, hexp, hnl]
    simp [verifyOTP, hf, hv, hval]

/-- C7 witness: the sample user with stored code "123456" expiring at time
1000, the same code submitted at time 1000. -/
theorem C7_invalid_otp_frame_witness :
    verifyOTP [{ sampleUser with otp := some "123456", otpExpiry := some 1000 }]
        "ann@example.com" "123456" 1000 "jwtsecret" =
      (.error ⟨"Invalid or expired OTP", 400, "INVALID_OTP"⟩,
       [{ sampleUser with otp := some "123456", otpExpiry := some 1000 }]) :=
  (C7_invalid_otp_frame [{ sampleUser with otp := some "123456", otpExpiry := some 1000 }]
      "ann@example.com" "123456" 1000 "jwtsecret").2
    { sampleUser with otp := some "123456", otpExpiry := some 1000 }
    "123456" 1000 (by decide) rfl rfl rfl (by decide)

set_option maxRecDepth 4000 in
/-- C3: `verifyOTP` classifies failures with exact precedence — 404
`USER_NOT_FOUND` exactly when no account matches the normalized email,
else 400 `ALREADY_VERIFIED` exactly when the account is already verified,
else 400 `INVALID_OTP` exactly when the stored pair does not validate
(`isOTPValid` holds exactly when the stored code equals the candidate and
the stored expiry is strictly in the future) — and a success sets the
verification flag, clears the OTP pair, persists, and returns a token. -/
theorem C3_verifyOTP_classification (st : Store) (email otp : String) (now : Nat) (secret : String) :
    (∀ u : User, u.isOTPValid otp now = true ↔
      (u.otp = some otp ∧ ∃ e, u.otpExpiry = some e ∧ now < e)) ∧
    ((verifyOTP st email otp now secret).1 =
        .error ⟨"User not found", 404, "USER_NOT_FOUND"⟩ ↔
      findByEmail st email = none) ∧
    ((verifyOTP st email otp now secret).1 =
        .error ⟨"User is already verified", 400, "ALREADY_VERIFIED"⟩ ↔
      ∃ u, findByEmail st email = some u ∧ u.isVerified = true) ∧
    ((verifyOTP st email otp now secret).1 =
        .error ⟨"Invalid or expired OTP", 400, "INVALID_OTP"⟩ ↔
      ∃ u, findByEmail st email = some u ∧ u.isVerified = false ∧
        u.isOTPValid otp now = false) ∧
    (∀ s, (verifyOTP st email otp now secret).1 = .ok s →
      ∃ u, findByEmail st email = some u ∧ u.isVerified = false ∧
        u.isOTPValid otp now = true ∧
        saveUser st (User.clearOTP { u with isVerified := true }) =
          .ok (verifyOTP st email otp now secret).2 ∧
        (User.clearOTP { u with isVerified := true }).isVerified = true ∧
        (User.clearOTP { u with isVerified := true }).otp = none ∧
        (User.clearOTP { u with isVerified := true }).otpExpiry = none ∧
        s.token = generateAccessToken ⟨Nat.repr u.id, u.email⟩ secret now) := by
  refine ⟨?_, ?_⟩
  · intro u
    cases hotp : u.otp with
    | none => simp [User.isOTPValid, hotp]
    | some stored =>
      cases hexp : u.otpExpiry with
      | none => simp [User.isOTPValid, hotp, hexp]
      | some e => simp [User.isOTPValid, hotp, hexp]
  rcases hf : findByEmail st email with _ | u
  · refine ⟨?_, ?_, ?_, ?_⟩ <;> simp [verifyOTP, hf]
  by_cases hv : u.isVerified = true
  · refine ⟨?_, ?_, ?_, ?_⟩ <;> simp [verifyOTP, hf, hv]
  by_cases ho : u.isOTPValid otp now = true
  · rcases hs : saveUser st (User.clearOTP { u with isVerified := true }) with e | st'
    · refine ⟨?_, ?_, ?_, ?_⟩ <;> simp [verifyOTP, hf, hv, ho, hs]
    · refine ⟨?_, ?_, ?_, ?_⟩ <;> simp [verifyOTP, hf, hv, ho, hs]
      simp [User.clearOTP]
  · refine ⟨?_, ?_, ?_, ?_⟩ <;> simp [verifyOTP, hf, hv, ho]

/-- C3 witness: concrete instances of the user-not-found and success
branches. -/
theorem C3_verifyOTP_classification_witness :
    (verifyOTP [] "ann@example.com" "123456" 0 "jwtsecret").1 =
      .error ⟨"User not found", 404, "USER_NOT_FOUND"⟩ :=
  (C3_verifyOTP_classification [] "ann@example.com" "123456" 0 "jwtsecret").2.1.mpr rfl

/-- C5: a registration that passes validation and the duplicate check
persists the new account and returns the 201 success outcome whether or
not the OTP email delivery succeeds — delivery failure does not roll the
account back and does not fail the call, it only switches the message to
the retry-via-resend variant. -/
theorem C5_register_delivery_failure (st : Store) (email password name : String)
    (freshId seed now : Nat) (joiEmail : String → Bool)
    (hval : registerSchemaAccepts joiEmail email password name = true)
    (hdup : findByEmail st email = none)
    (hfresh : st.any (fun v => v.id == freshId) = false) :
    ∃ newUser : User,
      (register st email password name freshId seed now true joiEmail).2 = st ++ [newUser] ∧
      (register st email password name freshId seed now false joiEmail).2 = st ++ [newUser] ∧
      newUser.password = some (bcryptHash password 12) ∧
      (∃ r, (register st email password name freshId seed now true joiEmail).1 = .ok r ∧
        r.status = 201 ∧ r.success = true ∧
        r.message = "User registered successfully. Please check your email for OTP verification.") ∧
      (∃ r, (register st email password name freshId seed now false joiEmail).1 = .ok r ∧
        r.status = 201 ∧ r.success = true ∧
        r.message = "User registered but email could not be sent. Please try to resend OTP.") := by
  refine ⟨{ id := freshId
            email := normalizeEmail email
            password := some (bcryptHash password 12)
            name := jsTrim name
            isVerified := false
            googleId := none
            otp := some (Nat.repr (100000 + randomDraw seed))
            otpExpiry := some (now + 10 * 60 * 1000)
            createdAt := now }, ?_, ?_, rfl, ?_, ?_⟩ <;>
    simp [register, hval, hdup, User.generateOTP, saveUser, hfresh]

/-- C5 witness: a concrete registration into the empty store, with and
without email delivery. -/
theorem C5_register_delivery_failure_witness :
    ∃ newUser : User,
      (register [] "bob@example.com" "secret1" "Bob" 2 0 0 true (fun _ => true)).2 =
        [] ++ [newUser] ∧
      (register [] "bob@example.com" "secret1" "Bob" 2 0 0 false (fun _ => true)).2 =
        [] ++ [newUser] ∧
      newUser.password = some (bcryptHash "secret1" 12) ∧
      (∃ r, (register [] "bob@example.com" "secret1" "Bob" 2 0 0 true (fun _ => true)).1 = .ok r ∧
        r.status = 201 ∧ r.success = true ∧
        r.message = "User registered successfully. Please check your email for OTP verification.") ∧
      (∃ r, (register [] "bob@example.com" "secret1" "Bob" 2 0 0 false (fun _ => true)).1 = .ok r ∧
        r.status = 201 ∧ r.success = true ∧
        r.message = "User registered but email could not be sent. Please try to resend OTP.") :=
  C5_register_delivery_failure [] "bob@example.com" "secret1" "Bob" 2 0 0 (fun _ => true)
    (by decide) (by decide) (by decide)

/-- C10: an authenticated password change whose current password matches
the stored hash but whose new password also matches it fails with 400
`SAME_PASSWORD` and leaves the store (hence the stored hash) unchanged;
and the hash is replaced only on calls where the current password matches
and the new password differs. -/
theorem C10_changePassword_same_password (st : Store) (userId : Nat)
    (currentPassword newPassword : String) (user : User) (hash : BcryptHash)
    (hval : validChangePasswordInput currentPassword newPassword = true)
    (hfind : findById st userId = some user)
    (hpw : user.password = some hash)
    (hcur : bcryptCompare currentPassword hash = true) :
    (bcryptCompare newPassword hash = true →
      changePassword st userId currentPassword newPassword =
        (.error ⟨"New password must be different from current password", 400, "SAME_PASSWORD"⟩,
         st)) ∧
    (∀ (st2 : Store) (uid : Nat) (cur new : String) r st2',
      changePassword st2 uid cur new = (.ok r, st2') →
      ∃ u2 h2, findById st2 uid = some u2 ∧ u2.password = some h2 ∧
        bcryptCompare cur h2 = true ∧ bcryptCompare new h2 = false ∧
        saveUser st2 { u2 with password := some (bcryptHash new 12) } = .ok st2') := by
  constructor
  · intro hnew
    simp [changePassword, hval, hfind, hpw, hcur, hnew]
  · intro st2 uid cur new r st2' h
    rcases hf2 : findById st2 uid with _ | u2
    · simp [changePassword, hf2] at h
      rcases h1 : validChangePasswordInput cur new with _ | _ <;> simp [h1] at h
    rcases hp2 : u2.password with _ | h2
    · simp [changePassword, hf2, hp2] at h
      rcases h1 : validChangePasswordInput cur new with _ | _ <;> simp [h1] at h
    refine ⟨u2, h2, rfl, hp2, ?_⟩
    rcases h1 : validChangePasswordInput cur new with _ | _
    · simp [changePassword, h1] at h
    by_cases hc2 : bcryptCompare cur h2 = true
    · by_cases hn2 : bcryptCompare new h2 = true
      · simp [changePassword, h1, hf2, hp2, hc2, hn2] at h
      · rcases hs2 : saveUser st2 { u2 with password := some (bcryptHash new 12) } with e | st3
        · simp [changePassword, h1, hf2, hp2, hc2, hn2, hs2] at h
        · simp [changePassword, h1, hf2, hp2, hc2, hn2, hs2] at h
          simp [Bool.not_eq_true] at hn2
          exact ⟨hc2, hn2, by rw [h.2]⟩
    · simp [changePassword, h1, hf2, hp2, hc2] at h

/-- C10 witness: changing the sample user's password to the same value. -/
theorem C10_changePassword_same_password_witness :
    changePassword [sampleUser] 1 "secret1" "secret1" =
      (.error ⟨"New password must be different from current password", 400, "SAME_PASSWORD"⟩,
       [sampleUser]) :=
  (C10_changePassword_same_password [sampleUser] 1 "secret1" "secret1" sampleUser
      (bcryptHash "secret1" 12) (by decide) (by decide) rfl (by decide)).1 (by decide)

/-- An account found by `findByEmail` is in the store, so a save of a
document with its id takes the replace branch. -/
theorem findByEmail_any_id (st : Store) (email : String) (u : User)
    (h : findByEmail st email = some u) :
    st.any (fun v => v.id == u.id) = true := by
  have hm : u ∈ st := List.mem_of_find?_eq_some h
  simp only [List.any_eq_true]
  exact ⟨u, hm, by simp⟩

/-- A reachable linked-but-unverified account: the sample user with a
Google subject id (a state produced by a profile email change on a
Google-linked account, which resets the verification flag). -/
def linkedUnverified : User :=
  { sampleUser with googleId := some "gid-1" }

/-- C1 counterexample: a federated login for an account that is already
linked (`googleId` set) but currently unverified succeeds yet leaves the
store — and thus the false verification flag — unchanged, refuting the
claim that every successful federated login on an existing account ends
with `isVerified = true`. -/
theorem C1_counterexample :
    (googleAuth [linkedUnverified]
        (.verified ⟨some "gid-1", some "ann@example.com", some "Ann"⟩) 9 0 "jwtsecret").2 =
      [linkedUnverified] ∧
    (googleAuth [linkedUnverified]
        (.verified ⟨some "gid-1", some "ann@example.com", some "Ann"⟩) 9 0 "jwtsecret").1 =
      .ok (mkAuthSuccess "Google login successful" linkedUnverified "jwtsecret" 0) ∧
    linkedUnverified.isVerified = false :=
  ⟨by decide, rfl, by decide⟩

/-- C1 (amended): on a federated login whose assertion yields a complete
`{subjectId, email, name}` and whose email matches an existing account,
the operation links the subject id and force-sets verification true only
when the account is not already linked; when the account is already
linked, it succeeds without modifying the account, so a linked-but-
unverified account remains unverified. -/
theorem C1_google_link_upgrade (st : Store) (googleId email name : String)
    (user : User) (freshId now : Nat) (secret : String)
    (hg : googleId ≠ "") (he : email ≠ "") (hn : name ≠ "")
    (hfind : findByEmail st email = some user) :
    (optTruthy user.googleId = false →
      googleAuth st (.verified ⟨some googleId, some email, some name⟩) freshId now secret =
        (.ok (mkAuthSuccess "Google login successful"
                { user with googleId := some googleId, isVerified := true } secret now),
         replaceById st { user with googleId := some googleId, isVerified := true })) ∧
    (optTruthy user.googleId = true →
      googleAuth st (.verified ⟨some googleId, some email, some name⟩) freshId now secret =
        (.ok (mkAuthSuccess "Google login successful" user secret now), st)) := by
  have hany : st.any (fun v => v.id == user.id) = true := findByEmail_any_id st email user hfind
  have hop : optTruthy (some googleId) = true := by simp [optTruthy, hg]
  constructor
  · intro hnot
    simp [googleAuth, hg, he, hn, hfind, hnot, saveUser, hop, hany]
  · intro hyes
    simp [googleAuth, hg, he, hn, hfind, hyes]

/-- C1 witness: linking the unlinked sample user sets the flag; the
already-linked user is returned with the store unchanged. -/
theorem C1_google_link_upgrade_witness :
    googleAuth [sampleUser]
        (.verified ⟨some "gid-1", some "ann@example.com", some "Ann"⟩) 9 0 "jwtsecret" =
      (.ok (mkAuthSuccess "Google login successful"
              { sampleUser with googleId := some "gid-1", isVerified := true } "jwtsecret" 0),
       replaceById [sampleUser] { sampleUser with googleId := some "gid-1", isVerified := true }) :=
  (C1_google_link_upgrade [sampleUser] "gid-1" "ann@example.com" "Ann" sampleUser 9 0 "jwtsecret"
      (by decide) (by decide) (by decide) (by decide)).1 (by decide)

/-! ### The authentication-method invariant (claim C6) -/

/-- The property guarded by the `pre('save')` hook: a password hash or a
(truthy) federated subject id is present. -/
def hasAuthMethod (u : User) : Bool :=
  u.password.isSome || optTruthy u.googleId

/-- Every document in the store has an authentication method. -/
def goodStore (st : Store) : Prop :=
  ∀ u ∈ st, hasAuthMethod u = true

/-- A successful save implies the saved document has an auth method. -/
theorem saveUser_ok_hasAuth {st : Store} {u : User} {st' : Store}
    (h : saveUser st u = .ok st') : hasAuthMethod u = true := by
  unfold saveUser at h
  split at h
  · exact absurd h (by simp)
  · rename_i hc
    cases hp : u.password with
    | some _ => simp [hasAuthMethod, hp]
    | none =>
      cases hgi : optTruthy u.googleId with
      | true => simp [hasAuthMethod, hp, hgi]
      | false => exact absurd (by simp [hp, hgi]) hc

/-- A successful save preserves the store invariant. -/
theorem goodStore_saveUser {st : Store} {u : User} {st' : Store}
    (hg : goodStore st) (h : saveUser st u = .ok st') : goodStore st' := by
  have hu := saveUser_ok_hasAuth h
  unfold saveUser at h
  split at h
  · exact absurd h (by simp)
  split at h
  · injection h with h
    subst h
    intro v hv
    unfold replaceById at hv
    obtain ⟨w, hw, hvw⟩ := List.mem_map.mp hv
    by_cases hid : (w.id == u.id) = true
    · rw [← hvw]
      simp only [hid, if_true]
      exact hu
    · rw [← hvw]
      simp only [hid, if_false]
      exact hg w hw
  · injection h with h
    subst h
    intro v hv
    rcases List.mem_append.mp hv with h1 | h1
    · exact hg v h1
    · simp only [List.mem_singleton] at h1
      subst h1
      exact hu

/-- The store after an operation: either unchanged, or the result of one
successful save on the pre-state. -/
abbrev storeChange (st st' : Store) : Prop :=
  st' = st ∨ ∃ u, saveUser st u = .ok st'

theorem goodStore_storeChange {st st' : Store}
    (hg : goodStore st) (h : storeChange st st') : goodStore st' := by
  rcases h with rfl | ⟨u, hu⟩
  · exact hg
  · exact goodStore_saveUser hg hu

/-- `login` never writes to the store. -/
theorem login_store (st : Store) (email password : String) (now : Nat) (secret : String) :
    (login st email password now secret).2 = st := by
  rcases hf : st.find? (fun u => u.email == normalizeEmail email) with _ | u
  · simp [login, hf]
  by_cases h1 : (optTruthy u.googleId && u.password.isNone) = true
  · simp [login, hf, h1]
  rcases hp : u.password with _ | hash
  · simp [login, hf, h1, hp]
  by_cases hc : bcryptCompare password hash = true
  · by_cases hv : u.isVerified = true <;> simp [login, hf, h1, hp, hc, hv]
  · simp [login, hf, h1, hp, hc]

/-- `register` changes the store only through one save. -/
theorem register_storeChange (st : Store) (email password name : String)
    (freshId seed now : Nat) (emailOk : Bool) (joiEmail : String → Bool) :
    storeChange st (register st email password name freshId seed now emailOk joiEmail).2 := by
  by_cases hval : registerSchemaAccepts joiEmail email password name = true
  · rcases hdup : findByEmail st email with _ | u
    · rcases hsave : saveUser st
          { id := freshId
            email := normalizeEmail email
            password := some (bcryptHash password 12)
            name := jsTrim name
            isVerified := false
            googleId := none
            otp := some (Nat.repr (100000 + randomDraw seed))
            otpExpiry := some (now + 10 * 60 * 1000)
            createdAt := now } with e | st2
      · have h2 : (register st email password name freshId seed now emailOk joiEmail).2 = st := by
          simp [register, hval, hdup, User.generateOTP, hsave]
        rw [h2]
        exact .inl rfl
      · have h2 : (register st email password name freshId seed now emailOk joiEmail).2 = st2 := by
          cases emailOk <;> simp [register, hval, hdup, User.generateOTP, hsave]
        rw [h2]
        exact .inr ⟨_, hsave⟩
    · have h2 : (register st email password name freshId seed now emailOk joiEmail).2 = st := by
        simp [register, hval, hdup]
      rw [h2]
      exact .inl rfl
  · have h2 : (register st email password name freshId seed now emailOk joiEmail).2 = st := by
      simp [register, hval]
    rw [h2]
    exact .inl rfl

/-- `verifyOTP` changes the store only through one save. -/
theorem verifyOTP_storeChange (st : Store) (email otp : String) (now : Nat) (secret : String) :
    storeChange st (verifyOTP st email otp now secret).2 := by
  rcases hf : findByEmail st email with _ | u
  · have h2 : (verifyOTP st email otp now secret).2 = st := by simp [verifyOTP, hf]
    rw [h2]; exact .inl rfl
  by_cases hv : u.isVerified = true
  · have h2 : (verifyOTP st email otp now secret).2 = st := by simp [verifyOTP, hf, hv]
    rw [h2]; exact .inl rfl
  by_cases ho : u.isOTPValid otp now = true
  · rcases hsave : saveUser st (User.clearOTP { u with isVerified := true }) with e | st2
    · have h2 : (verifyOTP st email otp now secret).2 = st := by
        simp [verifyOTP, hf, hv, ho, hsave]
      rw [h2]; exact .inl rfl
    · have h2 : (verifyOTP st email otp now secret).2 = st2 := by
        simp [verifyOTP, hf, hv, ho, hsave]
      rw [h2]; exact .inr ⟨_, hsave⟩
  · have h2 : (verifyOTP st email otp now secret).2 = st := by simp [verifyOTP, hf, hv, ho]
    rw [h2]; exact .inl rfl

/-- `googleAuth` changes the store only through one save. -/
theorem googleAuth_storeChange (st : Store) (v : GoogleVerification)
    (freshId now : Nat) (secret : String) :
    storeChange st (googleAuth st v freshId now secret).2 := by
  rcases v with _ | _ | p
  · exact .inl rfl
  · exact .inl rfl
  rcases p with ⟨s?, e?, n?⟩
  rcases s? with _ | g <;> rcases e? with _ | e <;> rcases n? with _ | n
  all_goals try exact .inl rfl
  by_cases hguard : (g == "" || e == "" || n == "") = true
  · have h2 : (googleAuth st (.verified ⟨some g, some e, some n⟩) freshId now secret).2 = st := by
      simp only [googleAuth, hguard, if_true]
    rw [h2]; exact .inl rfl
  rcases hfind : findByEmail st e with _ | user
  · rcases hsave : saveUser st
        { id := freshId
          email := normalizeEmail e
          password := none
          name := n
          isVerified := true
          googleId := some g
          otp := none
          otpExpiry := none
          createdAt := now } with er | st2
    · have h2 : (googleAuth st (.verified ⟨some g, some e, some n⟩) freshId now secret).2 = st := by
        simp [googleAuth, hguard, hfind, hsave]
      rw [h2]; exact .inl rfl
    · have h2 : (googleAuth st (.verified ⟨some g, some e, some n⟩) freshId now secret).2 = st2 := by
        simp [googleAuth, hguard, hfind, hsave]
      rw [h2]; exact .inr ⟨_, hsave⟩
  · by_cases hlink : optTruthy user.googleId = true
    · have h2 : (googleAuth st (.verified ⟨some g, some e, some n⟩) freshId now secret).2 = st := by
        simp [googleAuth, hguard, hfind, hlink]
      rw [h2]; exact .inl rfl
    · rcases hsave : saveUser st { user with googleId := some g, isVerified := true } with er | st2
      · have h2 : (googleAuth st (.verified ⟨some g, some e, some n⟩) freshId now secret).2 = st := by
          simp [googleAuth, hguard, hfind, hlink, hsave]
        rw [h2]; exact .inl rfl
      · have h2 : (googleAuth st (.verified ⟨some g, some e, some n⟩) freshId now secret).2 = st2 := by
          simp [googleAuth, hguard, hfind, hlink, hsave]
        rw [h2]; exact .inr ⟨_, hsave⟩

/-- `updateProfile` changes the store only through one save. -/
theorem updateProfile_storeChange (st : Store) (userId : Nat) (name? email? : Option String)
    (joiEmail : String → Bool) :
    storeChange st (updateProfile st userId name? email? joiEmail).2 := by
  by_cases hval : updateProfileSchemaAccepts joiEmail name? email? = true
  case neg =>
    have h2 : (updateProfile st userId name? email? joiEmail).2 = st := by
      simp [updateProfile, hval]
    rw [h2]; exact .inl rfl
  rcases hfind : findById st userId with _ | user
  · have h2 : (updateProfile st userId name? email? joiEmail).2 = st := by
      by_cases hempty : (name?.isNone && email?.isNone) = true <;>
        simp [updateProfile, hval, hempty, hfind]
    rw [h2]; exact .inl rfl
  rcases email? with _ | newEmail
  · rcases name? with _ | newName
    · have h2 : (updateProfile st userId none none joiEmail).2 = st := by
        simp [updateProfile, hval, hfind]
      rw [h2]; exact .inl rfl
    · rcases hsave : saveUser st { user with name := jsTrim newName } with er | st2
      · have h2 : (updateProfile st userId (some newName) none joiEmail).2 = st := by
          simp [updateProfile, hval, hfind, hsave]
        rw [h2]; exact .inl rfl
      · have h2 : (updateProfile st userId (some newName) none joiEmail).2 = st2 := by
          simp [updateProfile, hval, hfind, hsave]
        rw [h2]; exact .inr ⟨_, hsave⟩
  by_cases hne : (newEmail != user.email) = true
  · rcases hdup : findByEmail st newEmail with _ | other
    · rcases name? with _ | newName
      · rcases hsave : saveUser st
            { user with email := jsToLower newEmail, isVerified := false } with er | st2
        · have h2 : (updateProfile st userId none (some newEmail) joiEmail).2 = st := by
            simp [updateProfile, hval, hfind, hne, hdup, hsave]
          rw [h2]; exact .inl rfl
        · have h2 : (updateProfile st userId none (some newEmail) joiEmail).2 = st2 := by
            simp [updateProfile, hval, hfind, hne, hdup, hsave]
          rw [h2]; exact .inr ⟨_, hsave⟩
      · rcases hsave : saveUser st
            { user with email := jsToLower newEmail, isVerified := false,
                        name := jsTrim newName } with er | st2
        · have h2 : (updateProfile st userId (some newName) (some newEmail) joiEmail).2 = st := by
            simp [updateProfile, hval, hfind, hne, hdup, hsave]
          rw [h2]; exact .inl rfl
        · have h2 : (updateProfile st userId (some newName) (some newEmail) joiEmail).2 = st2 := by
            simp [updateProfile, hval, hfind, hne, hdup, hsave]
          rw [h2]; exact .inr ⟨_, hsave⟩
    · have h2 : (updateProfile st userId name? (some newEmail) joiEmail).2 = st := by
        rcases name? with _ | newName <;> simp [updateProfile, hval, hfind, hne, hdup]
      rw [h2]; exact .inl rfl
  · rcases name? with _ | newName
    · rcases hsave : saveUser st user with er | st2
      · have h2 : (updateProfile st userId none (some newEmail) joiEmail).2 = st := by
          simp [updateProfile, hval, hfind, hne, hsave]
        rw [h2]; exact .inl rfl
      · have h2 : (updateProfile st userId none (some newEmail) joiEmail).2 = st2 := by
          simp [updateProfile, hval, hfind, hne, hsave]
        rw [h2]; exact .inr ⟨_, hsave⟩
    · rcases hsave : saveUser st { user with name := jsTrim newName } with er | st2
      · have h2 : (updateProfile st userId (some newName) (some newEmail) joiEmail).2 = st := by
          simp [updateProfile, hval, hfind, hne, hsave]
        rw [h2]; exact .inl rfl
      · have h2 : (updateProfile st userId (some newName) (some newEmail) joiEmail).2 = st2 := by
          simp [updateProfile, hval, hfind, hne, hsave]
        rw [h2]; exact .inr ⟨_, hsave⟩

/-- `changePassword` changes the store only through one save. -/
theorem changePassword_storeChange (st : Store) (userId : Nat) (cur new : String) :
    storeChange st (changePassword st userId cur new).2 := by
  by_cases hval : validChangePasswordInput cur new = true
  · rcases hfind : findById st userId with _ | user
    · have h2 : (changePassword st userId cur new).2 = st := by
        simp [changePassword, hval, hfind]
      rw [h2]; exact .inl rfl
    rcases hp : user.password with _ | hash
    · have h2 : (changePassword st userId cur new).2 = st := by
        simp [changePassword, hval, hfind, hp]
      rw [h2]; exact .inl rfl
    by_cases hc : bcryptCompare cur hash = true
    · by_cases hn : bcryptCompare new hash = true
      · have h2 : (changePassword st userId cur new).2 = st := by
          simp [changePassword, hval, hfind, hp, hc, hn]
        rw [h2]; exact .inl rfl
      · rcases hsave : saveUser st { user with password := some (bcryptHash new 12) } with er | st2
        · have h2 : (changePassword st userId cur new).2 = st := by
            simp [changePassword, hval, hfind, hp, hc, hn, hsave]
          rw [h2]; exact .inl rfl
        · have h2 : (changePassword st userId cur new).2 = st2 := by
            simp [changePassword, hval, hfind, hp, hc, hn, hsave]
          rw [h2]; exact .inr ⟨_, hsave⟩
    · have h2 : (changePassword st userId cur new).2 = st := by
        simp [changePassword, hval, hfind, hp, hc]
      rw [h2]; exact .inl rfl
  · have h2 : (changePassword st userId cur new).2 = st := by
      simp [changePassword, hval]
    rw [h2]; exact .inl rfl

/-- A document with no authentication method, for the concrete witness. -/
def noAuthUser : User :=
  { sampleUser with password := none }

/-- C6: a save succeeds only for documents carrying a password hash or a
federated subject id; a document with neither fails the pre-save hook and
is not stored; and every operation of the API (registration, OTP
verification, login, federated login, profile update, password change)
preserves the invariant that all persisted accounts have an
authentication method. -/
theorem C6_auth_method_invariant :
    (∀ (st : Store) (u : User) (st' : Store),
      saveUser st u = .ok st' → hasAuthMethod u = true) ∧
    (∀ (st : Store) (u : User), hasAuthMethod u = false →
      saveUser st u = .error .noAuthMethod) ∧
    (∀ st : Store, goodStore st →
      (∀ email password name freshId seed now emailOk joiEmail,
        goodStore (register st email password name freshId seed now emailOk joiEmail).2) ∧
      (∀ email otp now secret, goodStore (verifyOTP st email otp now secret).2) ∧
      (∀ email password now secret, goodStore (login st email password now secret).2) ∧
      (∀ v freshId now secret, goodStore (googleAuth st v freshId now secret).2) ∧
      (∀ userId name? email? joiEmail,
        goodStore (updateProfile st userId name? email? joiEmail).2) ∧
      (∀ userId cur new, goodStore (changePassword st userId cur new).2)) := by
  refine ⟨fun st u st' h => saveUser_ok_hasAuth h, ?_, ?_⟩
  · intro st u h
    simp only [hasAuthMethod, Bool.or_eq_false_iff] at h
    obtain ⟨h1, h2⟩ := h
    cases hp : u.password with
    | some _ => rw [hp] at h1; simp at h1
    | none => simp [saveUser, hp, h2]
  · intro st hg
    refine ⟨?_, ?_, ?_, ?_, ?_, ?_⟩
    · intro email password name freshId seed now emailOk joiEmail
      exact goodStore_storeChange hg
        (register_storeChange st email password name freshId seed now emailOk joiEmail)
    · intro email otp now secret
      exact goodStore_storeChange hg (verifyOTP_storeChange st email otp now secret)
    · intro email password now secret
      rw [login_store st email password now secret]
      exact hg
    · intro v freshId now secret
      exact goodStore_storeChange hg (googleAuth_storeChange st v freshId now secret)
    · intro userId name? email? joiEmail
      exact goodStore_storeChange hg (updateProfile_storeChange st userId name? email? joiEmail)
    · intro userId cur new
      exact goodStore_storeChange hg (changePassword_storeChange st userId cur new)

/-- C6 witness: saving a concrete document with neither credential fails,
and registration into the empty (trivially good) store preserves the
invariant. -/
theorem C6_auth_method_invariant_witness :
    saveUser [] noAuthUser = .error .noAuthMethod ∧
    goodStore (register [] "bob@example.com" "secret1" "Bob" 2 0 0 true (fun _ => true)).2 :=
  ⟨C6_auth_method_invariant.2.1 [] noAuthUser (by decide),
   ((C6_auth_method_invariant.2.2 [] (by intro u hu; simp at hu)).1
     "bob@example.com" "secret1" "Bob" 2 0 0 true (fun _ => true))⟩

end NoteApp
